import Mathlib

/-!
Verification of the iob-soc OpenSBI platform module
(src/software/opensbi_platform/iob_soc/platform.c).

The shallow embedding models the configuration registry (the four
file-scope records `uart`, `plic`, `mswi`, `mtimer`), the device-tree
parse outcomes as an opaque record of `Option` results, and each hook of
the platform descriptor as a pure function over that state.  External
driver entry points (uart8250, PLIC, ACLINT) are represented by the
arguments the hooks pass to them and by their result codes, which the
hooks receive as inputs.
-/

namespace IobSoc

/-- Unsigned-long / uint64 word width used for device addresses. -/
def WORD : Nat := 2 ^ 64

/-- u32 width used for `current_hartid()` arithmetic. -/
def WORD32 : Nat := 2 ^ 32

/-- `struct platform_uart_data` (addr, freq, baud). -/
structure PlatformUartData where
  addr : Nat
  freq : Nat
  baud : Nat
deriving DecidableEq

/-- `struct plic_data` (addr, num_src). -/
structure PlicData where
  addr : Nat
  num_src : Nat
deriving DecidableEq

/-- `struct aclint_mswi_data`. -/
structure AclintMswiData where
  addr : Nat
  size : Nat
  first_hartid : Nat
  hart_count : Nat
deriving DecidableEq

/-- `struct aclint_mtimer_data`.  The C field `has_64bit_mmio` is named
`has_64bit_access` here. -/
structure AclintMtimerData where
  mtime_freq : Nat
  mtime_addr : Nat
  mtime_size : Nat
  mtimecmp_addr : Nat
  mtimecmp_size : Nat
  first_hartid : Nat
  hart_count : Nat
  has_64bit_access : Bool
deriving DecidableEq

/-- The configuration registry: the four file-scope mutable records of
platform.c. -/
structure Registry where
  uart : PlatformUartData
  plic : PlicData
  mswi : AclintMswiData
  mtimer : AclintMtimerData
deriving DecidableEq

/-- The device tree as seen through the opaque parsing service: each
field is the outcome of one of the four `fdt_parse_*` calls made by
`iob_soc_early_init` (`some` = return code 0 with the decoded value,
`none` = non-zero return code). -/
structure Fdt where
  parse_uart8250 : Option PlatformUartData
  parse_plic : Option PlicData
  parse_timebase_frequency : Option Nat
  parse_compat_addr : Option Nat
deriving DecidableEq

/- Compile-time constants of platform.c. -/

def IOB_SOC_PLIC_ADDR : Nat := 0xFC000000
def IOB_SOC_PLIC_NUM_SOURCES : Nat := 32
def IOB_SOC_HART_COUNT : Nat := 1
def IOB_SOC_CLINT_ADDR : Nat := 0xF8000000
def IOB_SOC_ACLINT_MTIMER_FREQ : Nat := 100000000
def IOB_SOC_UART_ADDR : Nat := 0xF4000000
def IOB_SOC_UART_INPUT_FREQ : Nat := 100000000
def IOB_SOC_UART_BAUDRATE : Nat := 115200

/- Constants from the OpenSBI framework headers (external collaborator):
the CLINT block layout and the ACLINT default register offsets/sizes. -/

def CLINT_MSWI_OFFSET : Nat := 0x0000
def CLINT_MTIMER_OFFSET : Nat := 0x4000
def ACLINT_MSWI_SIZE : Nat := 0x4000
def ACLINT_DEFAULT_MTIME_OFFSET : Nat := 0x7ff8
def ACLINT_DEFAULT_MTIME_SIZE : Nat := 0x8
def ACLINT_DEFAULT_MTIMECMP_OFFSET : Nat := 0x0000
def ACLINT_DEFAULT_MTIMECMP_SIZE : Nat := 0x7ff8

def IOB_SOC_ACLINT_MSWI_ADDR : Nat := IOB_SOC_CLINT_ADDR + CLINT_MSWI_OFFSET
def IOB_SOC_ACLINT_MTIMER_ADDR : Nat := IOB_SOC_CLINT_ADDR + CLINT_MTIMER_OFFSET

/-- Static initializer of the file-scope `uart` record. -/
def uart_default : PlatformUartData :=
  { addr := IOB_SOC_UART_ADDR
    freq := IOB_SOC_UART_INPUT_FREQ
    baud := IOB_SOC_UART_BAUDRATE }

/-- Static initializer of the file-scope `plic` record. -/
def plic_default : PlicData :=
  { addr := IOB_SOC_PLIC_ADDR
    num_src := IOB_SOC_PLIC_NUM_SOURCES }

/-- Static initializer of the file-scope `mswi` record. -/
def mswi_default : AclintMswiData :=
  { addr := IOB_SOC_ACLINT_MSWI_ADDR
    size := ACLINT_MSWI_SIZE
    first_hartid := 0
    hart_count := IOB_SOC_HART_COUNT }

/-- Static initializer of the file-scope `mtimer` record. -/
def mtimer_default : AclintMtimerData :=
  { mtime_freq := IOB_SOC_ACLINT_MTIMER_FREQ
    mtime_addr := IOB_SOC_ACLINT_MTIMER_ADDR + ACLINT_DEFAULT_MTIME_OFFSET
    mtime_size := ACLINT_DEFAULT_MTIME_SIZE
    mtimecmp_addr := IOB_SOC_ACLINT_MTIMER_ADDR + ACLINT_DEFAULT_MTIMECMP_OFFSET
    mtimecmp_size := ACLINT_DEFAULT_MTIMECMP_SIZE
    first_hartid := 0
    hart_count := IOB_SOC_HART_COUNT
    has_64bit_access := true }

/-- The registry at image load: the four static initializers. -/
def defaultRegistry : Registry :=
  { uart := uart_default
    plic := plic_default
    mswi := mswi_default
    mtimer := mtimer_default }

/- `iob_soc_early_init`, decomposed into its four resolution steps,
each mirroring one `rc = fdt_parse_...; if (!rc) ...` block. -/

/-- `rc = fdt_parse_uart8250(fdt, &uart_data, "ns16550"); if (!rc) uart = uart_data;` -/
def resolve_uart (fdt : Fdt) (s : Registry) : Registry :=
  match fdt.parse_uart8250 with
  | some u => { s with uart := u }
  | none => s

/-- `rc = fdt_parse_plic(fdt, &plic_data, "riscv,plic0"); if (!rc) plic = plic_data;` -/
def resolve_plic (fdt : Fdt) (s : Registry) : Registry :=
  match fdt.parse_plic with
  | some p => { s with plic := p }
  | none => s

/-- `rc = fdt_parse_timebase_frequency(fdt, &aclint_freq); if (!rc) mtimer.mtime_freq = aclint_freq;` -/
def resolve_timebase (fdt : Fdt) (s : Registry) : Registry :=
  match fdt.parse_timebase_frequency with
  | some f => { s with mtimer := { s.mtimer with mtime_freq := f } }
  | none => s

/-- `rc = fdt_parse_compat_addr(fdt, &clint_addr, "riscv,clint0"); if (!rc) { ... }`
The three address assignments are uint64 arithmetic, hence mod `WORD`. -/
def resolve_clint (fdt : Fdt) (s : Registry) : Registry :=
  match fdt.parse_compat_addr with
  | some clint_addr =>
      { s with
        mswi := { s.mswi with addr := clint_addr % WORD }
        mtimer := { s.mtimer with
          mtime_addr :=
            (clint_addr + CLINT_MTIMER_OFFSET + ACLINT_DEFAULT_MTIME_OFFSET) % WORD
          mtimecmp_addr :=
            (clint_addr + CLINT_MTIMER_OFFSET + ACLINT_DEFAULT_MTIMECMP_OFFSET) % WORD } }
  | none => s

/-- `iob_soc_early_init`: on the cold-boot hart, run the four resolution
steps in program order; otherwise return 0 leaving the registry alone.
Result is (return code, registry after the call). -/
def iob_soc_early_init (cold_boot : Bool) (fdt : Fdt) (s : Registry) :
    Int × Registry :=
  if cold_boot = false then (0, s)
  else (0, resolve_clint fdt (resolve_timebase fdt (resolve_plic fdt (resolve_uart fdt s))))

/-- `iob_soc_final_init`: on a non-cold hart returns 0 immediately; on the
cold-boot hart calls `fdt_fixups` (which rewrites the device-tree blob,
an external effect) and returns 0.  The registry is never touched. -/
def iob_soc_final_init (cold_boot : Bool) (s : Registry) : Int × Registry :=
  if cold_boot = false then (0, s) else (0, s)

/-- The (addr, freq, baud) triple `iob_soc_console_init` passes to
`uart8250_init`: the compile-time macros, regardless of the registry
state.  The registry argument is taken to state dependence claims. -/
def iob_soc_console_init_args (_s : Registry) : Nat × Nat × Nat :=
  (IOB_SOC_UART_ADDR, IOB_SOC_UART_INPUT_FREQ, IOB_SOC_UART_BAUDRATE)

/-- The two interrupt-context identifiers `iob_soc_irqchip_init` passes to
`plic_warm_irqchip_init` for a given hart: `2 * hartid` and
`2 * hartid + 1` in u32 arithmetic. -/
def irqchip_warm_contexts (hartid : Nat) : Nat × Nat :=
  ((2 * hartid) % WORD32, (2 * hartid + 1) % WORD32)

/-- `iob_soc_irqchip_init`.  `coldF` and `warmF` model the external PLIC
driver entry points as functions from the arguments the hook passes to
the status code they return.  Result: the hook's return code, paired with
`some c` when the per-hart warm phase was invoked with contexts `c`, or
`none` when it was skipped. -/
def iob_soc_irqchip_init (cold_boot : Bool) (hartid : Nat) (s : Registry)
    (coldF : PlicData → Int) (warmF : PlicData → Nat → Nat → Int) :
    Int × Option (Nat × Nat) :=
  if cold_boot then
    let ret := coldF s.plic
    if ret ≠ 0 then (ret, none)
    else
      let c := irqchip_warm_contexts hartid
      (warmF s.plic c.1 c.2, some c)
  else
    let c := irqchip_warm_contexts hartid
    (warmF s.plic c.1 c.2, some c)

/-- `iob_soc_ipi_init`.  `coldF` models `aclint_mswi_cold_init` (a
function of the mswi record it is given), `warmRet` the result of
`aclint_mswi_warm_init()` (no arguments).  Result: the hook's return
code, paired with whether the warm phase was invoked. -/
def iob_soc_ipi_init (cold_boot : Bool) (s : Registry)
    (coldF : AclintMswiData → Int) (warmRet : Int) : Int × Bool :=
  if cold_boot then
    let ret := coldF s.mswi
    if ret ≠ 0 then (ret, false)
    else (warmRet, true)
  else (warmRet, true)

/-- `iob_soc_timer_init`.  `coldF` models `aclint_mtimer_cold_init` (a
function of the mtimer record it is given), `warmRet` the result of
`aclint_mtimer_warm_init()`. -/
def iob_soc_timer_init (cold_boot : Bool) (s : Registry)
    (coldF : AclintMtimerData → Int) (warmRet : Int) : Int × Bool :=
  if cold_boot then
    let ret := coldF s.mtimer
    if ret ≠ 0 then (ret, false)
    else (warmRet, true)
  else (warmRet, true)

end IobSoc

open IobSoc

/-- C3: when all four device-tree resolutions fail, the registry after the
cold-boot Early phase equals the compiled defaults exactly: serial is
{addr=0xF4000000, freq=100000000, baud=115200}, the interrupt controller
is {addr=0xFC000000, 32 sources}, and the timer tick frequency is
100000000. -/
theorem early_init_all_misses_keeps_defaults (fdt : Fdt)
    (h1 : fdt.parse_uart8250 = none) (h2 : fdt.parse_plic = none)
    (h3 : fdt.parse_timebase_frequency = none) (h4 : fdt.parse_compat_addr = none) :
    (iob_soc_early_init true fdt defaultRegistry).2 = defaultRegistry ∧
    defaultRegistry.uart = { addr := 0xF4000000, freq := 100000000, baud := 115200 } ∧
    defaultRegistry.plic = { addr := 0xFC000000, num_src := 32 } ∧
    defaultRegistry.mtimer.mtime_freq = 100000000 := by
  refine ⟨?_, by decide, by decide, by decide⟩
  simp [iob_soc_early_init, resolve_uart, resolve_plic, resolve_timebase, resolve_clint,
    h1, h2, h3, h4]

/-- Witness for C3 at the empty device tree. -/
theorem early_init_all_misses_keeps_defaults_witness :
    (iob_soc_early_init true ⟨none, none, none, none⟩ defaultRegistry).2 = defaultRegistry ∧
    defaultRegistry.uart = { addr := 0xF4000000, freq := 100000000, baud := 115200 } ∧
    defaultRegistry.plic = { addr := 0xFC000000, num_src := 32 } ∧
    defaultRegistry.mtimer.mtime_freq = 100000000 :=
  early_init_all_misses_keeps_defaults ⟨none, none, none, none⟩ rfl rfl rfl rfl

/-- C2: when the shared combined-block (clint) address resolution
succeeds with anchor A, after the cold-boot Early phase the IPI record's
address is A, the timer's mtime address is A + CLINT_MTIMER_OFFSET +
ACLINT_DEFAULT_MTIME_OFFSET, its mtimecmp address is A +
CLINT_MTIMER_OFFSET + ACLINT_DEFAULT_MTIMECMP_OFFSET, and the interrupt
controller's record is not recomputed from A: it is the decoded plic
record when its own resolution succeeded, else the prior (compiled
default) record. -/
theorem early_init_clint_anchor (fdt : Fdt) (A : Nat) (s : Registry)
    (hA : fdt.parse_compat_addr = some A)
    (hb : A + CLINT_MTIMER_OFFSET + ACLINT_DEFAULT_MTIME_OFFSET < WORD) :
    ((iob_soc_early_init true fdt s).2).mswi.addr = A ∧
    ((iob_soc_early_init true fdt s).2).mtimer.mtime_addr
      = A + CLINT_MTIMER_OFFSET + ACLINT_DEFAULT_MTIME_OFFSET ∧
    ((iob_soc_early_init true fdt s).2).mtimer.mtimecmp_addr
      = A + CLINT_MTIMER_OFFSET + ACLINT_DEFAULT_MTIMECMP_OFFSET ∧
    ((iob_soc_early_init true fdt s).2).plic
      = (match fdt.parse_plic with | some p => p | none => s.plic) := by
  have hcmp : ACLINT_DEFAULT_MTIMECMP_OFFSET ≤ ACLINT_DEFAULT_MTIME_OFFSET := by
    norm_num [ACLINT_DEFAULT_MTIMECMP_OFFSET, ACLINT_DEFAULT_MTIME_OFFSET]
  have hb2 : A + CLINT_MTIMER_OFFSET + ACLINT_DEFAULT_MTIMECMP_OFFSET < WORD := by omega
  have hbA : A < WORD := by omega
  rcases hu : fdt.parse_uart8250 with _ | u <;>
  rcases hp : fdt.parse_plic with _ | p <;>
  rcases hf : fdt.parse_timebase_frequency with _ | f <;>
  simp [iob_soc_early_init, resolve_uart, resolve_plic, resolve_timebase, resolve_clint,
    hu, hp, hf, hA, Nat.mod_eq_of_lt hbA, Nat.mod_eq_of_lt hb, Nat.mod_eq_of_lt hb2]

/-- Witness for C2 at a device tree carrying only a clint node at
0xE0000000, run over the default registry. -/
theorem early_init_clint_anchor_witness :
    ((iob_soc_early_init true ⟨none, none, none, some 0xE0000000⟩
        defaultRegistry).2).mswi.addr = 0xE0000000 ∧
    ((iob_soc_early_init true ⟨none, none, none, some 0xE0000000⟩
        defaultRegistry).2).mtimer.mtime_addr
      = 0xE0000000 + CLINT_MTIMER_OFFSET + ACLINT_DEFAULT_MTIME_OFFSET ∧
    ((iob_soc_early_init true ⟨none, none, none, some 0xE0000000⟩
        defaultRegistry).2).mtimer.mtimecmp_addr
      = 0xE0000000 + CLINT_MTIMER_OFFSET + ACLINT_DEFAULT_MTIMECMP_OFFSET ∧
    ((iob_soc_early_init true ⟨none, none, none, some 0xE0000000⟩
        defaultRegistry).2).plic = defaultRegistry.plic :=
  early_init_clint_anchor ⟨none, none, none, some 0xE0000000⟩ 0xE0000000
    defaultRegistry rfl (by decide)

/-- C6: a device tree in which only the serial resolution succeeds
replaces the serial record wholesale and leaves the interrupt
controller, IPI and timer records at the compiled defaults; moreover
each subsystem's resolution miss leaves that subsystem's record
untouched independently of the other outcomes. -/
theorem early_init_serial_only_isolated (fdt : Fdt) (u : PlatformUartData)
    (h1 : fdt.parse_uart8250 = some u) (h2 : fdt.parse_plic = none)
    (h3 : fdt.parse_timebase_frequency = none) (h4 : fdt.parse_compat_addr = none) :
    (iob_soc_early_init true fdt defaultRegistry).2
      = { defaultRegistry with uart := u } ∧
    (∀ (g : Fdt) (t : Registry), g.parse_uart8250 = none →
      ((iob_soc_early_init true g t).2).uart = t.uart) ∧
    (∀ (g : Fdt) (t : Registry), g.parse_plic = none →
      ((iob_soc_early_init true g t).2).plic = t.plic) ∧
    (∀ (g : Fdt) (t : Registry), g.parse_compat_addr = none →
      ((iob_soc_early_init true g t).2).mswi = t.mswi) ∧
    (∀ (g : Fdt) (t : Registry), g.parse_timebase_frequency = none →
      g.parse_compat_addr = none →
      ((iob_soc_early_init true g t).2).mtimer = t.mtimer) := by
  refine ⟨?_, ?_, ?_, ?_, ?_⟩
  · simp [iob_soc_early_init, resolve_uart, resolve_plic, resolve_timebase, resolve_clint,
      h1, h2, h3, h4]
  · intro g t hg
    rcases hp : g.parse_plic with _ | p <;>
    rcases hf : g.parse_timebase_frequency with _ | f <;>
    rcases hc : g.parse_compat_addr with _ | A <;>
    simp [iob_soc_early_init, resolve_uart, resolve_plic, resolve_timebase, resolve_clint,
      hg, hp, hf, hc]
  · intro g t hg
    rcases hu : g.parse_uart8250 with _ | u0 <;>
    rcases hf : g.parse_timebase_frequency with _ | f <;>
    rcases hc : g.parse_compat_addr with _ | A <;>
    simp [iob_soc_early_init, resolve_uart, resolve_plic, resolve_timebase, resolve_clint,
      hg, hu, hf, hc]
  · intro g t hg
    rcases hu : g.parse_uart8250 with _ | u0 <;>
    rcases hp : g.parse_plic with _ | p <;>
    rcases hf : g.parse_timebase_frequency with _ | f <;>
    simp [iob_soc_early_init, resolve_uart, resolve_plic, resolve_timebase, resolve_clint,
      hg, hu, hp, hf]
  · intro g t hg hg2
    rcases hu : g.parse_uart8250 with _ | u0 <;>
    rcases hp : g.parse_plic with _ | p <;>
    simp [iob_soc_early_init, resolve_uart, resolve_plic, resolve_timebase, resolve_clint,
      hg, hg2, hu, hp]

/-- Witness for C6 at a device tree carrying only a serial node. -/
theorem early_init_serial_only_isolated_witness :
    (iob_soc_early_init true
        ⟨some ⟨0xE0001000, 50000000, 9600⟩, none, none, none⟩ defaultRegistry).2
      = { defaultRegistry with uart := ⟨0xE0001000, 50000000, 9600⟩ } :=
  (early_init_serial_only_isolated ⟨some ⟨0xE0001000, 50000000, 9600⟩, none, none, none⟩
    ⟨0xE0001000, 50000000, 9600⟩ rfl rfl rfl rfl).1

/-- C8: the Early-phase resolution is idempotent: running it a second
time with the same device-tree outcomes over the registry left by the
first run changes nothing. -/
theorem early_init_idempotent (fdt : Fdt) (s : Registry) :
    (iob_soc_early_init true fdt (iob_soc_early_init true fdt s).2).2
      = (iob_soc_early_init true fdt s).2 := by
  rcases hu : fdt.parse_uart8250 with _ | u <;>
  rcases hp : fdt.parse_plic with _ | p <;>
  rcases hf : fdt.parse_timebase_frequency with _ | f <;>
  rcases hc : fdt.parse_compat_addr with _ | A <;>
  simp [iob_soc_early_init, resolve_uart, resolve_plic, resolve_timebase, resolve_clint,
    hu, hp, hf, hc]

/-- C7: the early_init and final_init hooks return status 0 for every
hart (cold or warm) and every device-tree outcome. -/
theorem early_and_final_init_always_succeed (cb : Bool) (fdt : Fdt) (s : Registry) :
    (iob_soc_early_init cb fdt s).1 = 0 ∧ (iob_soc_final_init cb s).1 = 0 := by
  cases cb <;> exact ⟨rfl, rfl⟩

/-- C9: on a hart other than the cold-boot hart, early_init and
final_init return 0 and leave the registry (all four records)
unchanged. -/
theorem warm_hart_early_final_are_noops (cb : Bool) (fdt : Fdt) (s : Registry)
    (h : cb = false) :
    iob_soc_early_init cb fdt s = (0, s) ∧ iob_soc_final_init cb s = (0, s) := by
  subst h; exact ⟨rfl, rfl⟩

/-- Witness for C9 on hart role warm, with the empty device tree and the
default registry. -/
theorem warm_hart_early_final_are_noops_witness :
    iob_soc_early_init false ⟨none, none, none, none⟩ defaultRegistry
      = (0, defaultRegistry) ∧
    iob_soc_final_init false defaultRegistry = (0, defaultRegistry) :=
  warm_hart_early_final_are_noops false ⟨none, none, none, none⟩ defaultRegistry rfl

/-- C4: for every hart id below the hart count, the irqchip hook's warm
phase receives exactly the context identifiers (2h, 2h+1); whenever the
warm phase runs, the pair passed is (2h, 2h+1) regardless of the
cold/warm role, the registry contents, or the driver results. -/
theorem irqchip_warm_contexts_pure (h : Nat) (hh : h < IOB_SOC_HART_COUNT) :
    irqchip_warm_contexts h = (2 * h, 2 * h + 1) ∧
    ∀ (cb : Bool) (s : Registry) (coldF : PlicData → Int)
      (warmF : PlicData → Nat → Nat → Int) (c : Nat × Nat),
      (iob_soc_irqchip_init cb h s coldF warmF).2 = some c → c = (2 * h, 2 * h + 1) := by
  have h0 : h = 0 := Nat.lt_one_iff.mp hh
  subst h0
  refine ⟨by decide, ?_⟩
  intro cb s coldF warmF c hc
  cases cb
  · simp [iob_soc_irqchip_init] at hc
    rw [← hc]; decide
  · by_cases hr : coldF s.plic = 0
    · simp [iob_soc_irqchip_init, hr] at hc
      rw [← hc]; decide
    · simp [iob_soc_irqchip_init, hr] at hc

/-- Witness for C4 at hart 0: the contexts are (0, 1). -/
theorem irqchip_warm_contexts_pure_witness :
    irqchip_warm_contexts 0 = (0, 1) :=
  (irqchip_warm_contexts_pure 0 (by decide)).1

/-- C5: for each of the irqchip, ipi and timer hooks, a non-zero cold
initializer result is returned unmodified with the warm initializer
skipped; when the cold initializer succeeds, or on a non-cold hart, the
hook returns the warm initializer's result unmodified. -/
theorem hooks_propagate_cold_failure (s : Registry) (h : Nat)
    (pc : PlicData → Int) (pw : PlicData → Nat → Nat → Int)
    (mc : AclintMswiData → Int) (mw : Int)
    (tc : AclintMtimerData → Int) (tw : Int) :
    (pc s.plic ≠ 0 → iob_soc_irqchip_init true h s pc pw = (pc s.plic, none)) ∧
    (pc s.plic = 0 → iob_soc_irqchip_init true h s pc pw
      = (pw s.plic (irqchip_warm_contexts h).1 (irqchip_warm_contexts h).2,
         some (irqchip_warm_contexts h))) ∧
    (iob_soc_irqchip_init false h s pc pw
      = (pw s.plic (irqchip_warm_contexts h).1 (irqchip_warm_contexts h).2,
         some (irqchip_warm_contexts h))) ∧
    (mc s.mswi ≠ 0 → iob_soc_ipi_init true s mc mw = (mc s.mswi, false)) ∧
    (mc s.mswi = 0 → iob_soc_ipi_init true s mc mw = (mw, true)) ∧
    (iob_soc_ipi_init false s mc mw = (mw, true)) ∧
    (tc s.mtimer ≠ 0 → iob_soc_timer_init true s tc tw = (tc s.mtimer, false)) ∧
    (tc s.mtimer = 0 → iob_soc_timer_init true s tc tw = (tw, true)) ∧
    (iob_soc_timer_init false s tc tw = (tw, true)) := by
  refine ⟨?_, ?_, rfl, ?_, ?_, rfl, ?_, ?_, rfl⟩ <;>
    intro hr <;> simp [iob_soc_irqchip_init, iob_soc_ipi_init, iob_soc_timer_init, hr]

/-- Witness for C5: a failing PLIC cold init (code -3) is returned with
the warm phase skipped, and a failing mswi cold init (code -5)
likewise; successful cold inits hand through the warm results. -/
theorem hooks_propagate_cold_failure_witness :
    iob_soc_irqchip_init true 0 defaultRegistry (fun _ => -3) (fun _ _ _ => 0)
      = (-3, none) ∧
    iob_soc_ipi_init true defaultRegistry (fun _ => -5) 0 = (-5, false) ∧
    iob_soc_ipi_init true defaultRegistry (fun _ => 0) 7 = (7, true) ∧
    iob_soc_timer_init true defaultRegistry (fun _ => -7) 0 = (-7, false) :=
  ⟨(hooks_propagate_cold_failure defaultRegistry 0 (fun _ => -3) (fun _ _ _ => 0)
      (fun _ => 0) 0 (fun _ => 0) 0).1 (by decide),
   (hooks_propagate_cold_failure defaultRegistry 0 (fun _ => 0) (fun _ _ _ => 0)
      (fun _ => -5) 0 (fun _ => 0) 0).2.2.2.1 (by decide),
   (hooks_propagate_cold_failure defaultRegistry 0 (fun _ => 0) (fun _ _ _ => 0)
      (fun _ => 0) 7 (fun _ => 0) 0).2.2.2.2.1 (by decide),
   (hooks_propagate_cold_failure defaultRegistry 0 (fun _ => 0) (fun _ _ _ => 0)
      (fun _ => 0) 0 (fun _ => -7) 0).2.2.2.2.2.2.1 (by decide)⟩

/-- C1 counter-evidence: after a device tree overrides the serial
record, the console hook still passes the compile-time macro triple
(0xF4000000, 100000000, 115200) to the uart8250 driver, which differs
from the (overridden) registry serial record — the `uart = uart_data`
write of early_init is dead with respect to console bring-up. -/
theorem console_init_ignores_registry :
    ((iob_soc_early_init true ⟨some ⟨0xE0002000, 25000000, 57600⟩, none, none, none⟩
        defaultRegistry).2).uart = ⟨0xE0002000, 25000000, 57600⟩ ∧
    iob_soc_console_init_args
      ((iob_soc_early_init true ⟨some ⟨0xE0002000, 25000000, 57600⟩, none, none, none⟩
          defaultRegistry).2)
      = (IOB_SOC_UART_ADDR, IOB_SOC_UART_INPUT_FREQ, IOB_SOC_UART_BAUDRATE) ∧
    iob_soc_console_init_args
      ((iob_soc_early_init true ⟨some ⟨0xE0002000, 25000000, 57600⟩, none, none, none⟩
          defaultRegistry).2)
      ≠ (0xE0002000, 25000000, 57600) := by decide

/-- C10: the Early-phase resolution never touches the IPI record's size,
first hart id or hart count, nor the timer record's mtime size, mtimecmp
size, first hart id, hart count or 64-bit-MMIO flag; starting from the
compiled defaults these fields keep their compiled values. -/
theorem early_init_preserves_fixed_fields (cb : Bool) (fdt : Fdt) (s : Registry) :
    (((iob_soc_early_init cb fdt s).2).mswi.size = s.mswi.size ∧
     ((iob_soc_early_init cb fdt s).2).mswi.first_hartid = s.mswi.first_hartid ∧
     ((iob_soc_early_init cb fdt s).2).mswi.hart_count = s.mswi.hart_count) ∧
    (((iob_soc_early_init cb fdt s).2).mtimer.mtime_size = s.mtimer.mtime_size ∧
     ((iob_soc_early_init cb fdt s).2).mtimer.mtimecmp_size = s.mtimer.mtimecmp_size ∧
     ((iob_soc_early_init cb fdt s).2).mtimer.first_hartid = s.mtimer.first_hartid ∧
     ((iob_soc_early_init cb fdt s).2).mtimer.hart_count = s.mtimer.hart_count ∧
     ((iob_soc_early_init cb fdt s).2).mtimer.has_64bit_access = s.mtimer.has_64bit_access) ∧
    (((iob_soc_early_init cb fdt defaultRegistry).2).mswi.size = ACLINT_MSWI_SIZE ∧
     ((iob_soc_early_init cb fdt defaultRegistry).2).mswi.first_hartid = 0 ∧
     ((iob_soc_early_init cb fdt defaultRegistry).2).mswi.hart_count = IOB_SOC_HART_COUNT ∧
     ((iob_soc_early_init cb fdt defaultRegistry).2).mtimer.mtime_size
        = ACLINT_DEFAULT_MTIME_SIZE ∧
     ((iob_soc_early_init cb fdt defaultRegistry).2).mtimer.mtimecmp_size
        = ACLINT_DEFAULT_MTIMECMP_SIZE ∧
     ((iob_soc_early_init cb fdt defaultRegistry).2).mtimer.first_hartid = 0 ∧
     ((iob_soc_early_init cb fdt defaultRegistry).2).mtimer.hart_count
        = IOB_SOC_HART_COUNT ∧
     ((iob_soc_early_init cb fdt defaultRegistry).2).mtimer.has_64bit_access = true) := by
  have key : ∀ t : Registry,
      (((iob_soc_early_init cb fdt t).2).mswi.size = t.mswi.size ∧
       ((iob_soc_early_init cb fdt t).2).mswi.first_hartid = t.mswi.first_hartid ∧
       ((iob_soc_early_init cb fdt t).2).mswi.hart_count = t.mswi.hart_count) ∧
      (((iob_soc_early_init cb fdt t).2).mtimer.mtime_size = t.mtimer.mtime_size ∧
       ((iob_soc_early_init cb fdt t).2).mtimer.mtimecmp_size = t.mtimer.mtimecmp_size ∧
       ((iob_soc_early_init cb fdt t).2).mtimer.first_hartid = t.mtimer.first_hartid ∧
       ((iob_soc_early_init cb fdt t).2).mtimer.hart_count = t.mtimer.hart_count ∧
       ((iob_soc_early_init cb fdt t).2).mtimer.has_64bit_access
          = t.mtimer.has_64bit_access) := by
    intro t
    cases cb
    · simp [iob_soc_early_init]
    · rcases hu : fdt.parse_uart8250 with _ | u <;>
      rcases hp : fdt.parse_plic with _ | p <;>
      rcases hf : fdt.parse_timebase_frequency with _ | f <;>
      rcases hc : fdt.parse_compat_addr with _ | A <;>
      simp [iob_soc_early_init, resolve_uart, resolve_plic, resolve_timebase, resolve_clint,
        hu, hp, hf, hc]
  refine ⟨(key s).1, (key s).2, ?_⟩
  obtain ⟨⟨d1, d2, d3⟩, d4, d5, d6, d7, d8⟩ := key defaultRegistry
  rw [d1, d2, d3, d4, d5, d6, d7, d8]
  exact ⟨rfl, rfl, rfl, rfl, rfl, rfl, rfl, rfl⟩

